import Mathlib

set_option autoImplicit false

/-!
Shallow embedding of the clinic-bot appointment store and the wizard
handlers of src/main.py.

Conventions of the embedding:
* the JSON store (`self.data`) is the `Database` structure; every Python
  method that mutates it becomes a pure function returning the new
  `Database` (plus the Python return value);
* `datetime.now()` values are threaded in as an explicit `now : String`
  argument (they are opaque timestamps for every property considered here);
* Python dictionary access that can raise `KeyError` (the FSM `data[...]`
  reads) is modelled with `Option`-typed fields and `Option`-returning
  handlers;
* file persistence (`save_data`) is modelled for the persistence claims by
  the `...P` variants, which take a `saveOk : Bool` flag: the variant
  performs exactly the in-memory mutation the Python method performs before
  calling `save_data`, and returns `Except.error ()` when the write fails,
  mirroring the propagated exception.
-/

/-- One appointment record, exactly the dictionary built by
`Database.create_appointment` in src/main.py; `status` holds the literal
stored string ("active", "deleted", "completed"). -/
structure Appointment where
  id : Nat
  user_id : Nat
  patient_name : String
  doctor : String
  procedure : String
  date : String
  time : String
  created_at : String
  status : String
deriving DecidableEq, Repr

/-- One user record, the dictionary stored by `Database.add_user`;
`username` is optional in the chat platform, hence `Option`. -/
structure UserRec where
  username : Option String
  first_name : String
  registered_at : String
deriving DecidableEq, Repr

/-- The persisted store `self.data`: the `appointments` list, the `users`
mapping (an insertion-ordered association list keyed by user id) and the
`next_id` counter. -/
structure Database where
  appointments : List Appointment
  users : List (Nat × UserRec)
  next_id : Nat
deriving DecidableEq, Repr

/-- The fixed daily time-slot set `AVAILABLE_TIMES` of src/main.py. -/
def AVAILABLE_TIMES : List String :=
  ["09:00", "10:00", "11:00", "12:00", "14:00", "15:00", "16:00", "17:00"]

/-- `Database.add_user`: insert the user only when the id is not yet a key
of `users` (Python: `if str(user_id) not in self.data['users']`). -/
def Database.add_user (db : Database) (user_id : Nat) (username : Option String)
    (first_name : String) (now : String) : Database :=
  if db.users.any (fun p => p.1 == user_id) then db
  else { db with
         users := db.users ++
           [(user_id, { username := username, first_name := first_name,
                        registered_at := now })] }

/-- The per-record test of the loop body of `Database.is_appointment_available`:
the record is active and matches the (doctor, date, time) triple by string
equality. -/
def slot_taken_by (doctor date time : String) (a : Appointment) : Bool :=
  a.status == "active" && a.doctor == doctor && a.date == date && a.time == time

/-- `Database.is_appointment_available`: true iff no stored record is an
active appointment for exactly this (doctor, date, time) triple. -/
def Database.is_appointment_available (db : Database)
    (doctor date time : String) : Bool :=
  !(db.appointments.any (slot_taken_by doctor date time))

/-- `Database.create_appointment`: assign `next_id`, append an active
record, bump the counter, return the new id (and the new store). -/
def Database.create_appointment (db : Database) (user_id : Nat)
    (patient_name doctor procedure date time now : String) : Nat × Database :=
  let appointment_id := db.next_id
  let appointment : Appointment :=
    { id := appointment_id, user_id := user_id, patient_name := patient_name,
      doctor := doctor, procedure := procedure, date := date, time := time,
      created_at := now, status := "active" }
  (appointment_id,
   { db with appointments := db.appointments ++ [appointment],
             next_id := db.next_id + 1 })

/-- `Database.get_appointments(user_id=None)`: Python gates the owner filter
on the truthiness of `user_id` (`if user_id:`), so both `None` and `0` fall
through to the unfiltered branch returning all active records. -/
def Database.get_appointments (db : Database) (user_id : Option Nat) : List Appointment :=
  match user_id with
  | some uid =>
    if uid == 0 then db.appointments.filter (fun a => a.status == "active")
    else db.appointments.filter (fun a => a.user_id == uid && a.status == "active")
  | none => db.appointments.filter (fun a => a.status == "active")

/-- `Database.get_appointment`: first record with this id, scanning in
storage order. -/
def Database.get_appointment (db : Database) (appointment_id : Nat) : Option Appointment :=
  db.appointments.find? (fun a => a.id == appointment_id)

/-- The loop of `Database.update_appointment`: rewrite the first record
whose id matches, leaving the rest untouched; `none` when no id matches.
The Python `appointment.update(kwargs)` merge is the `upd` function, which
call sites instantiate with the single field they set. -/
def update_first (appointment_id : Nat) (upd : Appointment → Appointment) :
    List Appointment → Option (List Appointment)
  | [] => none
  | a :: rest =>
    if a.id == appointment_id then some (upd a :: rest)
    else
      match update_first appointment_id upd rest with
      | some rest' => some (a :: rest')
      | none => none

/-- `Database.update_appointment`: merge the given fields into the first
record with this id and report `true`; report `false` (and change nothing)
when the id is absent. -/
def Database.update_appointment (db : Database) (appointment_id : Nat)
    (upd : Appointment → Appointment) : Bool × Database :=
  match update_first appointment_id upd db.appointments with
  | some l => (true, { db with appointments := l })
  | none => (false, db)

/-- `Database.delete_appointment`: soft delete, i.e.
`update_appointment(appointment_id, status='deleted')`. -/
def Database.delete_appointment (db : Database) (appointment_id : Nat) : Bool × Database :=
  db.update_appointment appointment_id (fun a => { a with status := "deleted" })

/-- `Database.get_users`. -/
def Database.get_users (db : Database) : List (Nat × UserRec) :=
  db.users

/-- Number of active records occupying a given (doctor, date, time) slot. -/
def count_active_slot (db : Database) (doctor date time : String) : Nat :=
  db.appointments.countP (fun a => slot_taken_by doctor date time a)

/-! Persistence-aware variants: in src/main.py every mutating method first
mutates `self.data` in place and only then calls `save_data`; a write
failure raises out of `save_data`, propagating from the method while the
in-memory mutation stays. `saveOk = false` models the failing write. -/

/-- `add_user` with explicit persistence outcome: when the user is already
present no write is attempted; otherwise the insertion happens first and a
failed write surfaces as `Except.error ()` with the insertion kept. -/
def Database.add_userP (saveOk : Bool) (db : Database) (user_id : Nat)
    (username : Option String) (first_name : String) (now : String) :
    Except Unit Unit × Database :=
  if db.users.any (fun p => p.1 == user_id) then (Except.ok (), db)
  else
    let db' := db.add_user user_id username first_name now
    ((if saveOk then Except.ok () else Except.error ()), db')

/-- `create_appointment` with explicit persistence outcome: the append and
counter bump happen before the write, so a failed write propagates with the
mutation kept in memory. -/
def Database.create_appointmentP (saveOk : Bool) (db : Database) (user_id : Nat)
    (patient_name doctor procedure date time now : String) :
    Except Unit Nat × Database :=
  let r := db.create_appointment user_id patient_name doctor procedure date time now
  ((if saveOk then Except.ok r.1 else Except.error ()), r.2)

/-- `update_appointment` with explicit persistence outcome: when the id is
absent no write is attempted and `false` is returned; otherwise the record
is rewritten before the write. -/
def Database.update_appointmentP (saveOk : Bool) (db : Database)
    (appointment_id : Nat) (upd : Appointment → Appointment) :
    Except Unit Bool × Database :=
  match update_first appointment_id upd db.appointments with
  | some l =>
    ((if saveOk then Except.ok true else Except.error ()),
     { db with appointments := l })
  | none => (Except.ok false, db)

/-- `delete_appointment` with explicit persistence outcome. -/
def Database.delete_appointmentP (saveOk : Bool) (db : Database)
    (appointment_id : Nat) : Except Unit Bool × Database :=
  db.update_appointmentP saveOk appointment_id (fun a => { a with status := "deleted" })

/-! Keyboards: only the date keyboards matter to the claims. A calendar
date is modelled as a day index (`today + i` for offset `i`); the two
`strftime` renderings used by src/main.py are abstract formatting functions
`fmtDate` (for `"%d.%m.%Y"`) and `fmtDay` (for `strftime("%A")[:3]`), shared
verbatim by both derivations, exactly as both code paths share the same two
`strftime` calls. The trailing navigation button of each keyboard is not a
date choice and is omitted. -/

/-- One inline keyboard button. -/
structure Button where
  text : String
  callback_data : String
deriving DecidableEq, Repr

/-- The date-choice buttons of `get_dates_keyboard` (booking wizard):
offsets 0..6 from today, label `date (day)`, callback `select_date:date`. -/
def get_dates_keyboard_date_buttons (fmtDate fmtDay : Nat → String)
    (today : Nat) : List Button :=
  (List.range 7).map (fun i =>
    let date := today + i
    { text := fmtDate date ++ " (" ++ fmtDay date ++ ")",
      callback_data := "select_date:" ++ fmtDate date })

/-- The date-choice buttons built inline by `process_callback_edit_date`
(admin edit flow): offsets 0..13 from today (`for i in range(14)`), same
label rendering, callback `edit_select_date:date`. -/
def edit_date_keyboard_date_buttons (fmtDate fmtDay : Nat → String)
    (today : Nat) : List Button :=
  (List.range 14).map (fun i =>
    let date := today + i
    { text := fmtDate date ++ " (" ++ fmtDay date ++ ")",
      callback_data := "edit_select_date:" ++ fmtDate date })

/-! The FSM: aiogram states and per-user FSM data. `BotState.idle` is the
cleared (no-state) condition; `FSMData` holds the keys `update_data` can
store, each absent (`none`) until stored. -/

/-- The aiogram FSM states of `AppointmentStates` and `EditStates`, plus
`idle` for the cleared state. -/
inductive BotState where
  | idle
  | waiting_for_patient_name
  | waiting_for_doctor
  | waiting_for_procedure
  | waiting_for_date
  | waiting_for_time
  | waiting_for_confirmation
  | waiting_for_new_patient_name
  | waiting_for_new_doctor
  | waiting_for_new_procedure
  | waiting_for_new_date
  | waiting_for_new_time
deriving DecidableEq, Repr

/-- The per-user FSM storage written by `state.update_data`. -/
structure FSMData where
  patient_name : Option String
  doctor : Option String
  procedure : Option String
  date : Option String
  time : Option String
  edit_appointment_id : Option Nat
deriving DecidableEq, Repr

/-- Empty FSM storage (after `state.clear()`). -/
def FSMData.empty : FSMData :=
  { patient_name := none, doctor := none, procedure := none, date := none,
    time := none, edit_appointment_id := none }

/-- A per-user wizard session: current FSM state plus stored data. -/
structure Session where
  state : BotState
  data : FSMData
deriving DecidableEq, Repr

/-- The cleared session (`state.clear()`). -/
def Session.cleared : Session :=
  { state := BotState.idle, data := FSMData.empty }

/-- Python's `str.strip()`: drop leading and trailing whitespace. -/
def strip (s : String) : String :=
  ⟨((s.data.dropWhile Char.isWhitespace).reverse.dropWhile Char.isWhitespace).reverse⟩

/-- `process_patient_name` (booking wizard, state
`waiting_for_patient_name`): strip the text; when the stripped length is
outside [2,50] re-prompt and return without touching state or data;
otherwise store `patient_name` and advance to `waiting_for_doctor`. -/
def process_patient_name (text : String) (sess : Session) : Session :=
  let patient_name := strip text
  if patient_name.length < 2 || patient_name.length > 50 then
    sess
  else
    { state := BotState.waiting_for_doctor,
      data := { sess.data with patient_name := some patient_name } }

/-- `process_callback_select_time` (booking wizard, state
`waiting_for_time`): read `data['doctor']` and `data['date']` (KeyError,
i.e. `none`, when absent), re-check `is_appointment_available`; when the
slot is taken return with the session untouched (the handler re-renders the
time keyboard and stores nothing, and it never touches the store);
otherwise store `time` and advance to `waiting_for_confirmation`. -/
def process_callback_select_time (db : Database) (time : String)
    (sess : Session) : Option Session :=
  match sess.data.doctor, sess.data.date with
  | some doctor, some date =>
    if !(db.is_appointment_available doctor date time) then
      some sess
    else
      some { state := BotState.waiting_for_confirmation,
             data := { sess.data with time := some time } }
  | _, _ => none

/-- `process_callback_confirm` (booking wizard, state
`waiting_for_confirmation`): read all collected fields (`none` models the
KeyError on a missing one), call `create_appointment`, clear the session;
no availability check happens here. -/
def process_callback_confirm (db : Database) (user_id : Nat) (now : String)
    (sess : Session) : Option (Nat × Database × Session) :=
  match sess.data.patient_name, sess.data.doctor, sess.data.procedure,
        sess.data.date, sess.data.time with
  | some pn, some doctor, some procedure, some date, some time =>
    let r := db.create_appointment user_id pn doctor procedure date time now
    some (r.1, r.2, Session.cleared)
  | _, _, _, _, _ => none

/-- `process_callback_select_new_doctor` (admin edit flow, state
`waiting_for_new_doctor`): `data.get('edit_appointment_id')` then
`update_appointment(id, doctor=...)` with no availability check, report the
boolean result, clear the session. A `none` id makes `update_appointment`
match nothing and report `false`, as in Python with `None`. -/
def process_callback_select_new_doctor (db : Database) (doctor : String)
    (sess : Session) : Bool × Database × Session :=
  match sess.data.edit_appointment_id with
  | some appointment_id =>
    let r := db.update_appointment appointment_id (fun a => { a with doctor := doctor })
    (r.1, r.2, Session.cleared)
  | none => (false, db, Session.cleared)

/-- `process_callback_select_new_date` (admin edit flow, state
`waiting_for_new_date`): same shape as the doctor edit, no availability
check. -/
def process_callback_select_new_date (db : Database) (date : String)
    (sess : Session) : Bool × Database × Session :=
  match sess.data.edit_appointment_id with
  | some appointment_id =>
    let r := db.update_appointment appointment_id (fun a => { a with date := date })
    (r.1, r.2, Session.cleared)
  | none => (false, db, Session.cleared)

/-- `process_callback_select_new_time` (admin edit flow, state
`waiting_for_new_time`): same shape as the doctor edit, no availability
check. -/
def process_callback_select_new_time (db : Database) (time : String)
    (sess : Session) : Bool × Database × Session :=
  match sess.data.edit_appointment_id with
  | some appointment_id =>
    let r := db.update_appointment appointment_id (fun a => { a with time := time })
    (r.1, r.2, Session.cleared)
  | none => (false, db, Session.cleared)

/-- `process_callback_cancel_appointment` (user-facing cancel button): the
handler parses the appointment id from the callback payload and calls
`delete_appointment`; the calling user (`from_user_id`) is consulted only
to render the follow-up keyboard, never to authorize the deletion. -/
def process_callback_cancel_appointment (db : Database) (from_user_id : Nat)
    (appointment_id : Nat) : Bool × Database :=
  db.delete_appointment appointment_id

/-! Concrete sample data used by the closed witness theorems. -/

/-- A store with no records yet (the fresh-file initialisation of
`load_data`). -/
def empty_db : Database :=
  { appointments := [], users := [], next_id := 1 }

/-- A sample active appointment: user 10 with doctor "DocA" on
01.01.2026 at 09:00. -/
def apt1 : Appointment :=
  { id := 1, user_id := 10, patient_name := "Ann Lee", doctor := "DocA",
    procedure := "Check", date := "01.01.2026", time := "09:00",
    created_at := "t1", status := "active" }

/-- A sample active appointment of a different user with a different
doctor, same date and time as `apt1`. -/
def apt2 : Appointment :=
  { id := 2, user_id := 11, patient_name := "Bob Roe", doctor := "DocB",
    procedure := "Check", date := "01.01.2026", time := "09:00",
    created_at := "t2", status := "active" }

/-- A sample store holding `apt1` and `apt2`. -/
def sample_db : Database :=
  { appointments := [apt1, apt2], users := [], next_id := 3 }

/-- A booking-wizard session at the time-selection step, with the earlier
steps for doctor "DocA" on 01.01.2026 already collected. -/
def booking_sess : Session :=
  { state := BotState.waiting_for_time,
    data := { patient_name := some "Cara Doe", doctor := some "DocA",
              procedure := some "Check", date := some "01.01.2026",
              time := none, edit_appointment_id := none } }

/-! Helper lemmas about `find?`, `update_first`, availability and the
query functions. -/

theorem find?_split {α : Type} (p : α → Bool) :
    ∀ (l : List α) (a : α), l.find? p = some a →
      ∃ l1 l2, l = l1 ++ a :: l2 ∧ (∀ x ∈ l1, p x = false) ∧ p a = true := by
  intro l
  induction l with
  | nil => intro a h; simp at h
  | cons b t ih =>
    intro a h
    by_cases hb : p b = true
    · rw [List.find?_cons_of_pos _ hb] at h
      obtain rfl : b = a := by injection h
      exact ⟨[], t, rfl, by simp, hb⟩
    · rw [List.find?_cons_of_neg _ hb] at h
      obtain ⟨l1, l2, hsplit, h1, h2⟩ := ih a h
      refine ⟨b :: l1, l2, by rw [hsplit, List.cons_append], ?_, h2⟩
      intro x hx
      rcases List.mem_cons.1 hx with rfl | hx
      · simpa using hb
      · exact h1 x hx

theorem find?_append_cons {α : Type} (p : α → Bool) (a : α) :
    ∀ (l1 l2 : List α), (∀ x ∈ l1, p x = false) → p a = true →
      (l1 ++ a :: l2).find? p = some a := by
  intro l1
  induction l1 with
  | nil => intro l2 h1 ha; simpa using List.find?_cons_of_pos _ ha
  | cons b t ih =>
    intro l2 h1 ha
    have hb : p b = false := h1 b (List.mem_cons_self b t)
    rw [List.cons_append, List.find?_cons_of_neg _ (by simp [hb]),
        ih l2 (fun x hx => h1 x (List.mem_cons_of_mem b hx)) ha]

theorem update_first_append (i : Nat) (upd : Appointment → Appointment)
    (a : Appointment) :
    ∀ (l1 l2 : List Appointment), (∀ x ∈ l1, (x.id == i) = false) →
      (a.id == i) = true →
      update_first i upd (l1 ++ a :: l2) = some (l1 ++ upd a :: l2) := by
  intro l1
  induction l1 with
  | nil =>
    intro l2 h1 ha
    simp [update_first, ha]
  | cons b t ih =>
    intro l2 h1 ha
    have hb : (b.id == i) = false := h1 b (List.mem_cons_self b t)
    simp only [List.cons_append, update_first, hb, List.append_eq,
               Bool.false_eq_true, if_false]
    rw [ih l2 (fun x hx => h1 x (List.mem_cons_of_mem b hx)) ha]

theorem is_appointment_available_false_iff (db : Database) (d dt tm : String) :
    db.is_appointment_available d dt tm = false ↔
      ∃ a ∈ db.appointments, slot_taken_by d dt tm a = true := by
  simp [Database.is_appointment_available, List.any_eq_true]

theorem is_appointment_available_true_iff (db : Database) (d dt tm : String) :
    db.is_appointment_available d dt tm = true ↔
      count_active_slot db d dt tm = 0 := by
  simp [Database.is_appointment_available, count_active_slot,
        List.countP_eq_zero, List.any_eq_true]

theorem update_appointment_found (db : Database) (i : Nat) (a : Appointment)
    (upd : Appointment → Appointment)
    (hfind : db.get_appointment i = some a) (hup : (upd a).id = a.id) :
    ∃ l1 l2, db.appointments = l1 ++ a :: l2 ∧
      (∀ x ∈ l1, (x.id == i) = false) ∧ (a.id == i) = true ∧
      (db.update_appointment i upd).1 = true ∧
      (db.update_appointment i upd).2.appointments = l1 ++ upd a :: l2 ∧
      (db.update_appointment i upd).2.get_appointment i = some (upd a) := by
  obtain ⟨l1, l2, hsplit, h1, ha⟩ := find?_split _ db.appointments a hfind
  have hu := update_first_append i upd a l1 l2 h1 ha
  have ha' : ((upd a).id == i) = true := by rw [hup]; exact ha
  refine ⟨l1, l2, hsplit, h1, ha, ?_, ?_, ?_⟩
  · simp [Database.update_appointment, hsplit, hu]
  · simp [Database.update_appointment, hsplit, hu]
  · simp only [Database.update_appointment, hsplit, hu]
    exact find?_append_cons _ (upd a) l1 l2 h1 ha'

theorem mem_get_appointments (db : Database) (u : Option Nat) (b : Appointment)
    (h : b ∈ db.get_appointments u) :
    b ∈ db.appointments ∧ b.status = "active" := by
  cases u with
  | none =>
    simp only [Database.get_appointments, List.mem_filter] at h
    exact ⟨h.1, by simpa using h.2⟩
  | some uid =>
    by_cases h0 : (uid == 0) = true
    · simp only [Database.get_appointments, h0, if_true, List.mem_filter] at h
      exact ⟨h.1, by simpa using h.2⟩
    · simp only [Database.get_appointments, h0, if_false, Bool.false_eq_true,
                 List.mem_filter, Bool.and_eq_true] at h
      exact ⟨h.1, by simpa using h.2.2⟩

theorem get_appointments_sublist (db : Database) (u : Option Nat) :
    (db.get_appointments u).Sublist db.appointments := by
  cases u with
  | none => exact List.filter_sublist _
  | some uid =>
    by_cases h0 : (uid == 0) = true
    · simp only [Database.get_appointments, h0, if_true]
      exact List.filter_sublist _
    · simp only [Database.get_appointments, h0, if_false, Bool.false_eq_true]
      exact List.filter_sublist _

theorem add_user_mem (db : Database) (uid : Nat) (un : Option String)
    (fn now : String) :
    ((db.add_user uid un fn now).users.any (fun p => p.1 == uid)) = true := by
  by_cases h : (db.users.any (fun p => p.1 == uid)) = true
  · simpa [Database.add_user, h] using h
  · simp [Database.add_user, h, List.any_append]

/-! The claim theorems. -/

/-- Claim C4: `add_user` is idempotent — a second call with the same id
(whatever username / first name it carries) leaves the user store
completely unchanged: no duplicate entry, and the original username,
first name and registration timestamp are untouched. -/
theorem add_user_idempotent (db : Database) (uid : Nat)
    (u1 : Option String) (f1 t1 : String)
    (u2 : Option String) (f2 t2 : String) :
    (db.add_user uid u1 f1 t1).add_user uid u2 f2 t2 = db.add_user uid u1 f1 t1 := by
  by_cases hc : (db.users.any (fun p => p.1 == uid)) = true
  · simp [Database.add_user, hc]
  · simp [Database.add_user, hc, List.any_append]

/-- Claim C9: the owner filter of `get_appointments` applies only to truthy
owner ids — with owner id 0 (like with none) the call returns all active
records, not the records owned by user 0; on `sample_db` the two differ. -/
theorem get_appointments_owner_zero_unfiltered (db : Database) :
    db.get_appointments (some 0) =
      db.appointments.filter (fun a => a.status == "active") ∧
    db.get_appointments none =
      db.appointments.filter (fun a => a.status == "active") ∧
    ∃ db2 : Database,
      db2.get_appointments (some 0) ≠
        db2.appointments.filter (fun a => a.user_id == 0 && a.status == "active") := by
  refine ⟨rfl, rfl, ⟨sample_db, by decide⟩⟩

/-- Claim C10: the user-facing cancel action performs no ownership check:
for any caller and any existing appointment id the handler soft-deletes the
record and reports success, even when it belongs to a different user, and
its result does not depend on the caller at all. -/
theorem cancel_appointment_no_ownership_check (db : Database)
    (caller i : Nat) (a : Appointment)
    (hfind : db.get_appointment i = some a) (hforeign : a.user_id ≠ caller) :
    (process_callback_cancel_appointment db caller i).1 = true ∧
    (process_callback_cancel_appointment db caller i).2.get_appointment i =
      some { a with status := "deleted" } ∧
    (∀ c : Nat, process_callback_cancel_appointment db c i =
       process_callback_cancel_appointment db caller i) := by
  obtain ⟨l1, l2, hsplit, h1, ha, hres, happ, hget⟩ :=
    update_appointment_found db i a (fun x => { x with status := "deleted" }) hfind rfl
  refine ⟨?_, ?_, fun c => rfl⟩
  · simpa only [process_callback_cancel_appointment,
                Database.delete_appointment] using hres
  · simpa only [process_callback_cancel_appointment,
                Database.delete_appointment] using hget

/-- Witness for C10: user 99 cancels appointment 1, which belongs to user
10; the cancellation succeeds and the record is soft-deleted. -/
theorem cancel_appointment_no_ownership_check_witness :
    (sample_db.get_appointment 1 = some apt1) ∧ (apt1.user_id ≠ 99) ∧
    (process_callback_cancel_appointment sample_db 99 1).1 = true ∧
    (process_callback_cancel_appointment sample_db 99 1).2.get_appointment 1 =
      some { apt1 with status := "deleted" } :=
  ⟨by decide, by decide,
   (cancel_appointment_no_ownership_check sample_db 99 1 apt1 (by decide) (by decide)).1,
   (cancel_appointment_no_ownership_check sample_db 99 1 apt1 (by decide) (by decide)).2.1⟩

/-- Claim C3: at the name step, stripped inputs of length 1 or 51 are
rejected with the session untouched (same state, nothing stored), while
stripped lengths 2 and 50 are accepted, stored as `patient_name`, and the
wizard advances to the doctor-selection state. -/
theorem patient_name_length_gate (text : String) (sess : Session)
    (hstate : sess.state = BotState.waiting_for_patient_name) :
    (((strip text).length = 1 ∨ (strip text).length = 51) →
       process_patient_name text sess = sess) ∧
    (((strip text).length = 2 ∨ (strip text).length = 50) →
       process_patient_name text sess =
         { state := BotState.waiting_for_doctor,
           data := { sess.data with patient_name := some (strip text) } }) := by
  constructor
  · rintro (h | h) <;> simp [process_patient_name, h]
  · rintro (h | h) <;> simp [process_patient_name, h]

/-- Witness for C3: the stripped two-character name "An" is accepted,
stored, and the wizard advances to the doctor step. -/
theorem patient_name_length_gate_witness :
    ((strip " An ").length = 2 ∨ (strip " An ").length = 50) ∧
    process_patient_name " An "
        { state := BotState.waiting_for_patient_name, data := FSMData.empty } =
      { state := BotState.waiting_for_doctor,
        data := { FSMData.empty with patient_name := some (strip " An ") } } :=
  ⟨Or.inl (by decide),
   (patient_name_length_gate " An "
      { state := BotState.waiting_for_patient_name, data := FSMData.empty }
      rfl).2 (Or.inl (by decide))⟩

/-- Claim C1: after `create_appointment` for a triple the slot reads
unavailable; it stays unavailable as long as any active record for the
triple exists; and soft-deleting the created appointment makes it available
again when no other active record occupies the triple (the slot was
available before the creation). -/
theorem create_blocks_slot_until_softDelete (db : Database) (uid : Nat)
    (pn d dt tm pr now : String)
    (hfresh : ∀ a ∈ db.appointments, a.id ≠ db.next_id)
    (havail : db.is_appointment_available d dt tm = true) :
    ((db.create_appointment uid pn d pr dt tm now).2.is_appointment_available d dt tm = false) ∧
    (∀ db2 : Database, (∃ a ∈ db2.appointments, slot_taken_by d dt tm a = true) →
       db2.is_appointment_available d dt tm = false) ∧
    (((db.create_appointment uid pn d pr dt tm now).2.delete_appointment
        (db.create_appointment uid pn d pr dt tm now).1).1 = true) ∧
    (((db.create_appointment uid pn d pr dt tm now).2.delete_appointment
        (db.create_appointment uid pn d pr dt tm now).1).2.is_appointment_available d dt tm = true) := by
  have hany : db.appointments.any (slot_taken_by d dt tm) = false := by
    simpa [Database.is_appointment_available] using havail
  have h1 : ∀ x ∈ db.appointments, (x.id == db.next_id) = false :=
    fun x hx => beq_eq_false_iff_ne.mpr (hfresh x hx)
  have hupd := update_first_append db.next_id (fun x => { x with status := "deleted" })
    { id := db.next_id, user_id := uid, patient_name := pn, doctor := d,
      procedure := pr, date := dt, time := tm, created_at := now,
      status := "active" }
    db.appointments [] h1 (by simp)
  have hda : (("deleted" : String) == "active") = false := by decide
  refine ⟨?_, ?_, ?_, ?_⟩
  · simp [Database.create_appointment, Database.is_appointment_available,
          slot_taken_by, List.any_append]
  · intro db2 h
    exact (is_appointment_available_false_iff db2 d dt tm).mpr h
  · simp only [Database.create_appointment, Database.delete_appointment,
               Database.update_appointment]
    rw [hupd]
  · simp only [Database.create_appointment, Database.delete_appointment,
               Database.update_appointment]
    rw [hupd]
    simp [Database.is_appointment_available, List.any_append, hany,
          slot_taken_by, hda]

/-- Witness for C1: on the empty store, booking doctor "DocA" on
01.01.2026 at 09:00 makes the slot unavailable; soft-deleting the created
appointment frees it again. -/
theorem create_blocks_slot_until_softDelete_witness :
    (∀ a ∈ empty_db.appointments, a.id ≠ empty_db.next_id) ∧
    (empty_db.is_appointment_available "DocA" "01.01.2026" "09:00" = true) ∧
    ((empty_db.create_appointment 7 "Cara Doe" "DocA" "Check" "01.01.2026" "09:00" "t0").2.is_appointment_available "DocA" "01.01.2026" "09:00" = false) ∧
    (((empty_db.create_appointment 7 "Cara Doe" "DocA" "Check" "01.01.2026" "09:00" "t0").2.delete_appointment
        (empty_db.create_appointment 7 "Cara Doe" "DocA" "Check" "01.01.2026" "09:00" "t0").1).2.is_appointment_available "DocA" "01.01.2026" "09:00" = true) :=
  ⟨by decide, by decide,
   (create_blocks_slot_until_softDelete empty_db 7 "Cara Doe" "DocA" "01.01.2026" "09:00" "Check" "t0" (by decide) (by decide)).1,
   (create_blocks_slot_until_softDelete empty_db 7 "Cara Doe" "DocA" "01.01.2026" "09:00" "Check" "t0" (by decide) (by decide)).2.2.2⟩

/-- Claim C5: soft-deleting an appointment removes it from every
`get_appointments` view (with or without an owner filter) while
`get_appointment` still returns the full record with status "deleted"; and
`get_appointments` always returns active records in insertion order (its
output is a sublist of the stored list). -/
theorem softDelete_hides_and_retains (db : Database) (i : Nat) (a : Appointment)
    (hids : (db.appointments.map (fun x => x.id)).Nodup)
    (hfind : db.get_appointment i = some a) :
    ((db.delete_appointment i).1 = true) ∧
    ((db.delete_appointment i).2.get_appointment i =
       some { a with status := "deleted" }) ∧
    (∀ u : Option Nat, ∀ b ∈ (db.delete_appointment i).2.get_appointments u, b.id ≠ i) ∧
    (∀ (db2 : Database) (u : Option Nat),
       (db2.get_appointments u).Sublist db2.appointments ∧
       ∀ b ∈ db2.get_appointments u, b.status = "active") := by
  obtain ⟨l1, l2, hsplit, h1, ha, hres, happ, hget⟩ :=
    update_appointment_found db i a (fun x => { x with status := "deleted" }) hfind rfl
  have haid : a.id = i := by simpa using ha
  refine ⟨?_, ?_, ?_, ?_⟩
  · simpa only [Database.delete_appointment] using hres
  · simpa only [Database.delete_appointment] using hget
  · intro u b hb
    obtain ⟨hbmem, hbact⟩ := mem_get_appointments _ u b hb
    rw [show (db.delete_appointment i).2.appointments =
          l1 ++ ({ a with status := "deleted" } : Appointment) :: l2 from
          by simpa only [Database.delete_appointment] using happ] at hbmem
    intro hbid
    rcases List.mem_append.1 hbmem with hb1 | hb2
    · have hfalse := h1 b hb1
      rw [hbid] at hfalse
      simp at hfalse
    · rcases List.mem_cons.1 hb2 with rfl | hb2
      · exact absurd (show ("deleted" : String) = "active" from hbact) (by decide)
      · rw [hsplit] at hids
        rw [List.map_append, List.map_cons] at hids
        have h2 : a.id ∉ l2.map (fun x => x.id) :=
          (List.nodup_cons.1 hids.of_append_right).1
        have hmem : b.id ∈ l2.map (fun x => x.id) :=
          List.mem_map_of_mem _ hb2
        rw [hbid, ← haid] at hmem
        exact h2 hmem
  · intro db2 u
    exact ⟨get_appointments_sublist db2 u,
           fun b hb => (mem_get_appointments db2 u b hb).2⟩

/-- Witness for C5: soft-deleting appointment 2 of `sample_db` succeeds and
the record is still retrievable by id with status "deleted". -/
theorem softDelete_hides_and_retains_witness :
    ((sample_db.appointments.map (fun x => x.id)).Nodup) ∧
    (sample_db.get_appointment 2 = some apt2) ∧
    ((sample_db.delete_appointment 2).1 = true) ∧
    ((sample_db.delete_appointment 2).2.get_appointment 2 =
       some { apt2 with status := "deleted" }) :=
  ⟨by decide, by decide,
   (softDelete_hides_and_retains sample_db 2 apt2 (by decide) (by decide)).1,
   (softDelete_hides_and_retains sample_db 2 apt2 (by decide) (by decide)).2.1⟩

/-- Claim C7: the admin edit flows for the doctor, date and time fields
update the record without any slot-conflict re-check: even when another
active appointment already occupies the resulting (doctor, date, time)
triple, the update succeeds and is applied. -/
theorem admin_edit_no_conflict_check (db : Database) (sess : Session)
    (i : Nat) (a : Appointment) (d dt tm : String)
    (hid : sess.data.edit_appointment_id = some i)
    (hfind : db.get_appointment i = some a) :
    (db.is_appointment_available d a.date a.time = false →
       (process_callback_select_new_doctor db d sess).1 = true ∧
       (process_callback_select_new_doctor db d sess).2.1.get_appointment i =
         some { a with doctor := d }) ∧
    (db.is_appointment_available a.doctor dt a.time = false →
       (process_callback_select_new_date db dt sess).1 = true ∧
       (process_callback_select_new_date db dt sess).2.1.get_appointment i =
         some { a with date := dt }) ∧
    (db.is_appointment_available a.doctor a.date tm = false →
       (process_callback_select_new_time db tm sess).1 = true ∧
       (process_callback_select_new_time db tm sess).2.1.get_appointment i =
         some { a with time := tm }) := by
  obtain ⟨l1a, l2a, _, _, _, hres1, _, hget1⟩ :=
    update_appointment_found db i a (fun x => { x with doctor := d }) hfind rfl
  obtain ⟨l1b, l2b, _, _, _, hres2, _, hget2⟩ :=
    update_appointment_found db i a (fun x => { x with date := dt }) hfind rfl
  obtain ⟨l1c, l2c, _, _, _, hres3, _, hget3⟩ :=
    update_appointment_found db i a (fun x => { x with time := tm }) hfind rfl
  refine ⟨fun hc => ⟨?_, ?_⟩, fun hc => ⟨?_, ?_⟩, fun hc => ⟨?_, ?_⟩⟩ <;>
    simp only [process_callback_select_new_doctor, process_callback_select_new_date,
               process_callback_select_new_time, hid]
  exacts [hres1, hget1, hres2, hget2, hres3, hget3]

/-- Witness for C7: in `sample_db`, doctor "DocA" is already booked on
01.01.2026 at 09:00 (appointment 1), yet editing appointment 2 to doctor
"DocA" succeeds and is applied. -/
theorem admin_edit_no_conflict_check_witness :
    (sample_db.get_appointment 2 = some apt2) ∧
    (sample_db.is_appointment_available "DocA" apt2.date apt2.time = false) ∧
    ((process_callback_select_new_doctor sample_db "DocA"
        { state := BotState.waiting_for_new_doctor,
          data := { FSMData.empty with edit_appointment_id := some 2 } }).1 = true) ∧
    ((process_callback_select_new_doctor sample_db "DocA"
        { state := BotState.waiting_for_new_doctor,
          data := { FSMData.empty with edit_appointment_id := some 2 } }).2.1.get_appointment 2 =
       some { apt2 with doctor := "DocA" }) :=
  ⟨by decide, by decide,
   ((admin_edit_no_conflict_check sample_db
       { state := BotState.waiting_for_new_doctor,
         data := { FSMData.empty with edit_appointment_id := some 2 } }
       2 apt2 "DocA" "02.01.2026" "10:00" rfl (by decide)).1 (by decide)).1,
   ((admin_edit_no_conflict_check sample_db
       { state := BotState.waiting_for_new_doctor,
         data := { FSMData.empty with edit_appointment_id := some 2 } }
       2 apt2 "DocA" "02.01.2026" "10:00" rfl (by decide)).1 (by decide)).2⟩

/-- Claim C2: at the time-selection step the wizard re-checks availability:
an unavailable slot leaves the session untouched (same state, no time
stored; the handler never touches the store, so no appointment is
created), while an available slot advances to confirmation; confirming
creates the appointment, after which the same triple counts exactly one
active appointment and a second attempt is rejected already at the
time-selection step (the handler returns the session unchanged and never
reaches `create_appointment`). -/
theorem double_booking_blocked (db : Database) (sess : Session) (uid : Nat)
    (pn pr d dt tm now : String)
    (hstate : sess.state = BotState.waiting_for_time)
    (hpn : sess.data.patient_name = some pn)
    (hd : sess.data.doctor = some d)
    (hpr : sess.data.procedure = some pr)
    (hdt : sess.data.date = some dt) :
    (db.is_appointment_available d dt tm = false →
       process_callback_select_time db tm sess = some sess) ∧
    (db.is_appointment_available d dt tm = true →
       ∃ sess1,
         process_callback_select_time db tm sess = some sess1 ∧
         sess1.state = BotState.waiting_for_confirmation ∧
         sess1.data.time = some tm ∧
         ∃ i db1,
           process_callback_confirm db uid now sess1 = some (i, db1, Session.cleared) ∧
           count_active_slot db1 d dt tm = 1 ∧
           db1.is_appointment_available d dt tm = false ∧
           (∀ s : Session, s.data.doctor = some d → s.data.date = some dt →
              process_callback_select_time db1 tm s = some s)) := by
  have havail1 :
      (db.create_appointment uid pn d pr dt tm now).2.is_appointment_available d dt tm = false := by
    simp [Database.create_appointment, Database.is_appointment_available,
          slot_taken_by, List.any_append]
  constructor
  · intro h
    simp [process_callback_select_time, hd, hdt, h]
  · intro h
    refine ⟨{ state := BotState.waiting_for_confirmation,
              data := { sess.data with time := some tm } }, ?_, rfl, rfl, ?_⟩
    · simp [process_callback_select_time, hd, hdt, h]
    · refine ⟨db.next_id, (db.create_appointment uid pn d pr dt tm now).2,
              ?_, ?_, havail1, ?_⟩
      · simp [process_callback_confirm, hpn, hd, hpr, hdt,
              Database.create_appointment]
      · have h0 : count_active_slot db d dt tm = 0 :=
          (is_appointment_available_true_iff db d dt tm).1 h
        simp only [count_active_slot, Database.create_appointment] at h0 ⊢
        rw [List.countP_append, h0]
        simp [slot_taken_by]
      · intro s hs1 hs2
        simp [process_callback_select_time, hs1, hs2, havail1]

/-- Witness for C2: in `sample_db` the slot (DocA, 01.01.2026, 09:00) is
taken, so selecting 09:00 at the time step leaves the session unchanged. -/
theorem double_booking_blocked_witness :
    (sample_db.is_appointment_available "DocA" "01.01.2026" "09:00" = false) ∧
    process_callback_select_time sample_db "09:00" booking_sess = some booking_sess :=
  ⟨by decide,
   (double_booking_blocked sample_db booking_sess 7 "Cara Doe" "Check" "DocA"
      "01.01.2026" "09:00" "t9" rfl rfl rfl rfl rfl).1 (by decide)⟩

/-- Claim C6 (counterexample): the booking wizard's date-choice derivation
and the admin edit flow's date-choice derivation are not the same function
of the current day: already at today = 0 with a fixed rendering, the
booking keyboard derives 7 date choices while the edit keyboard derives
14, so the outputs differ. -/
theorem booking_vs_edit_dates_counterexample :
    get_dates_keyboard_date_buttons (fun _ => "d") (fun _ => "w") 0 ≠
      edit_date_keyboard_date_buttons (fun _ => "d") (fun _ => "w") 0 := by
  decide

/-- Claim C6 (amended): both flows render each offered day with the same
date-plus-weekday label rule, but over different windows: the booking
keyboard offers today + 0..6 (7 dates) and the edit keyboard today + 0..13
(14 dates); the booking labels are exactly the first seven edit labels. -/
theorem booking_dates_are_first_seven_edit_dates
    (fmtDate fmtDay : Nat → String) (today : Nat) :
    (get_dates_keyboard_date_buttons fmtDate fmtDay today).map Button.text =
      ((edit_date_keyboard_date_buttons fmtDate fmtDay today).map Button.text).take 7 ∧
    (get_dates_keyboard_date_buttons fmtDate fmtDay today).length = 7 ∧
    (edit_date_keyboard_date_buttons fmtDate fmtDay today).length = 14 := by
  refine ⟨?_, by simp [get_dates_keyboard_date_buttons],
          by simp [edit_date_keyboard_date_buttons]⟩
  simp only [get_dates_keyboard_date_buttons, edit_date_keyboard_date_buttons,
             List.map_map]
  rw [← List.map_take]
  rw [show (List.range 14).take 7 = List.range 7 from by decide]
  exact List.map_congr_left (fun i _ => rfl)

/-- Claim C8 (counterexample): a failing durable write during
`create_appointment` propagates as an error, but the in-memory store IS
left in exactly the mutated, committed form, which differs from the
pre-call store. -/
theorem persistence_no_rollback_counterexample :
    (Database.create_appointmentP false empty_db 7 "Cara Doe" "DocA" "Check"
        "01.01.2026" "09:00" "t0").1 = Except.error () ∧
    (Database.create_appointmentP false empty_db 7 "Cara Doe" "DocA" "Check"
        "01.01.2026" "09:00" "t0").2 =
      (empty_db.create_appointment 7 "Cara Doe" "DocA" "Check"
        "01.01.2026" "09:00" "t0").2 ∧
    (empty_db.create_appointment 7 "Cara Doe" "DocA" "Check"
        "01.01.2026" "09:00" "t0").2 ≠ empty_db :=
  ⟨rfl, rfl, by decide⟩

/-- Claim C8 (amended): when the durable write fails, every mutating store
operation propagates the failure as an error of that operation, but the
in-memory state IS left in the mutated form: a failed create still occupies
its slot in memory, a failed soft delete still marks the record deleted in
memory, and a failed user insertion still leaves the user present in
memory. -/
theorem persistence_error_propagates_state_mutated (db : Database)
    (uid : Nat) (pn d pr dt tm now fn : String) (un : Option String)
    (i : Nat) (a : Appointment) :
    ((db.create_appointmentP false uid pn d pr dt tm now).1 = Except.error () ∧
     (db.create_appointmentP false uid pn d pr dt tm now).2 =
       (db.create_appointment uid pn d pr dt tm now).2 ∧
     (db.create_appointmentP false uid pn d pr dt tm now).2.is_appointment_available d dt tm = false) ∧
    (db.get_appointment i = some a →
       (db.delete_appointmentP false i).1 = Except.error () ∧
       (db.delete_appointmentP false i).2.get_appointment i =
         some { a with status := "deleted" }) ∧
    ((db.users.any (fun p => p.1 == uid)) = false →
       (db.add_userP false uid un fn now).1 = Except.error () ∧
       ((db.add_userP false uid un fn now).2.users.any (fun p => p.1 == uid)) = true) := by
  refine ⟨⟨rfl, rfl, ?_⟩, ?_, ?_⟩
  · simp [Database.create_appointmentP, Database.create_appointment,
          Database.is_appointment_available, slot_taken_by, List.any_append]
  · intro hfind
    obtain ⟨l1, l2, hsplit, h1, ha, hres, happ, hget⟩ :=
      update_appointment_found db i a (fun x => { x with status := "deleted" }) hfind rfl
    have hu : update_first i (fun x => { x with status := "deleted" }) db.appointments =
        some (l1 ++ ({ a with status := "deleted" } : Appointment) :: l2) := by
      rw [hsplit]
      exact update_first_append i _ a l1 l2 h1 ha
    have hsame : (db.delete_appointmentP false i).2 = (db.delete_appointment i).2 := by
      simp [Database.delete_appointmentP, Database.delete_appointment,
            Database.update_appointmentP, Database.update_appointment, hu]
    constructor
    · simp [Database.delete_appointmentP, Database.update_appointmentP, hu]
    · rw [hsame]
      simpa only [Database.delete_appointment] using hget
  · intro hnot
    constructor
    · simp [Database.add_userP, hnot]
    · simp only [Database.add_userP, hnot, Bool.false_eq_true, if_false]
      exact add_user_mem db uid un fn now

/-- Witness for C8 (amended): on `sample_db`, a failed write during the
soft delete of appointment 1 surfaces as an error while the record reads
"deleted" in memory, and a failed write during the insertion of user 7
leaves the user present in memory. -/
theorem persistence_error_propagates_state_mutated_witness :
    (sample_db.get_appointment 1 = some apt1) ∧
    ((sample_db.users.any (fun p => p.1 == 7)) = false) ∧
    ((sample_db.delete_appointmentP false 1).1 = Except.error ()) ∧
    ((sample_db.delete_appointmentP false 1).2.get_appointment 1 =
       some { apt1 with status := "deleted" }) ∧
    ((sample_db.add_userP false 7 none "Cy" "t4").2.users.any (fun p => p.1 == 7)) = true :=
  ⟨by decide, by decide,
   ((persistence_error_propagates_state_mutated sample_db 7 "Cara Doe" "DocC"
       "Check" "02.01.2026" "10:00" "t3" "Cy" none 1 apt1).2.1 (by decide)).1,
   ((persistence_error_propagates_state_mutated sample_db 7 "Cara Doe" "DocC"
       "Check" "02.01.2026" "10:00" "t3" "Cy" none 1 apt1).2.1 (by decide)).2,
   ((persistence_error_propagates_state_mutated sample_db 7 "Cara Doe" "DocC"
       "Check" "02.01.2026" "10:00" "t3" "Cy" none 1 apt1).2.2 (by decide)).2⟩
